import Mathlib

/-!
Shallow embedding of the core extraction-to-artifact pipeline of
`finTools_app.py` (Empower Portfolio WebArchive Extractor), and proofs about
the claims on its specification.

Modelling conventions:
* pandas cell values are either strings or numbers; numbers are modelled as
  exact rationals (`ℚ`).  IEEE results that are not finite (NaN from `0/0`,
  `±inf` from `x/0`) are modelled as `none` in `Option ℚ`; a `some q` models a
  finite float holding the exact value `q`.
* a pandas `DataFrame` is a rectangular `Table`: an ordered column-name list
  plus positional rows.
* Python in-place mutation of a DataFrame argument is modelled by explicit
  state passing: `calculate_portfolio_statistics` returns the (possibly
  extended) table next to its result, mirroring the in-place
  `df['Value_numeric'] = ...` assignment on the caller's frame.
* file writes are modelled by the returned artifact-path fields plus an
  explicit ordered `Event` trace.
-/

/- Batteries seals the arithmetic on `Rat` as irreducible; re-open it so that
`decide` can evaluate the pipeline on concrete holdings tables. -/
set_option allowUnsafeReducibility true
attribute [semireducible] Rat.add Rat.sub Rat.mul Rat.inv Rat.ofScientific

namespace Portfolio

/-- A pandas cell value: either a string or a (finite) number. -/
inductive Value where
  | str (s : String)
  | num (q : ℚ)
deriving DecidableEq

/-- Numeric value of a digit run, most significant first (empty run gives 0,
as in Python's `float("...")` handling of an absent integer part of `".5"`). -/
def digitsToNat (ds : List Char) : ℕ :=
  ds.foldl (fun a c => a * 10 + (c.toNat - 48)) 0

/-- Mantissa value from an integer part and a fractional part. -/
def mantissaVal (intP fracP : List Char) : ℚ :=
  (digitsToNat intP : ℚ) + (digitsToNat fracP : ℚ) / (10 : ℚ) ^ fracP.length

/-- Parse the mantissa of a Python float literal: digits with at most one
decimal point, at least one digit overall.  Returns the value and the unread
remainder (a possible exponent part). -/
def parseMantissa (cs : List Char) : Option (ℚ × List Char) :=
  let intP := cs.takeWhile Char.isDigit
  let rest := cs.dropWhile Char.isDigit
  match rest with
  | '.' :: rest2 =>
    let fracP := rest2.takeWhile Char.isDigit
    let rest3 := rest2.dropWhile Char.isDigit
    if intP.isEmpty && fracP.isEmpty then none
    else some (mantissaVal intP fracP, rest3)
  | _ => if intP.isEmpty then none else some ((digitsToNat intP : ℚ), rest)

/-- Split an optional leading sign; returns (isNegative, remainder). -/
def parseSign : List Char → Bool × List Char
  | '+' :: t => (false, t)
  | '-' :: t => (true, t)
  | t => (false, t)

/-- Exponent part after the `e`/`E`: optional sign then a nonempty digit run. -/
def parseExpPart (cs : List Char) : Option (Bool × ℕ) :=
  let p := parseSign cs
  if p.2.isEmpty || !p.2.all Char.isDigit then none
  else some (p.1, digitsToNat p.2)

/-- Apply a parsed exponent to a mantissa (exact powers of ten over `ℚ`). -/
def applyExp (m : ℚ) (p : Bool × ℕ) : ℚ :=
  if p.1 then m / (10 : ℚ) ^ p.2 else m * (10 : ℚ) ^ p.2

/-- Python `float()` ignores surrounding whitespace: drop it from both ends
of the character list. -/
def trimChars (cs : List Char) : List Char :=
  ((cs.dropWhile Char.isWhitespace).reverse.dropWhile Char.isWhitespace).reverse

/-- Semantics of Python `float(s)` on a string, restricted to finite decimal
literals: optional surrounding whitespace, optional sign, digits with at most
one decimal point, optional exponent.  The special forms `inf`/`nan` and
digit-group underscores, which never arise from currency-formatted holdings
data, are treated as unparseable.  `none` models a raised `ValueError`. -/
def pyFloat? (s : String) : Option ℚ :=
  let p := parseSign (trimChars s.toList)
  match parseMantissa p.2 with
  | none => none
  | some (m, rest) =>
    let signed : ℚ → ℚ := fun q => if p.1 then -q else q
    match rest with
    | [] => some (signed m)
    | 'e' :: t => (parseExpPart t).map fun e => signed (applyExp m e)
    | 'E' :: t => (parseExpPart t).map fun e => signed (applyExp m e)
    | _ => none

/-- The regex replacement of line 318, `replace('[\$,]', '', regex=True)`:
every `$` and `,` character is removed from a string cell. -/
def stripCurrency (s : String) : String :=
  String.mk (s.toList.filter fun c => !(c == '$' || c == ','))

/-- Per-cell semantics of the object-dtype branch of lines 317-318: a string
cell is stripped of `$`/`,` then converted by `float`; a numeric cell passes
through `astype(float)` unchanged.  `none` models the raised conversion
error (caught at line 357 as `stats['error']`). -/
def coerceNumeric : Value → Option ℚ
  | .num q => some q
  | .str s => pyFloat? (stripCurrency s)

/-- Per-cell semantics of the non-object branch of line 320
(`df['Value_numeric'] = df['Value']`): the identity on numeric cells.  A
string cell cannot occur in a non-object column. -/
def numOnly : Value → Option ℚ
  | .num q => some q
  | .str _ => none

/-- Map a cell coercion over a column, failing if any single cell fails. -/
def coerceSeries (f : Value → Option ℚ) : List Value → Option (List ℚ)
  | [] => some []
  | v :: vs =>
    match f v, coerceSeries f vs with
    | some q, some qs => some (q :: qs)
    | _, _ => none

/-- True when the column contains a string, i.e. when pandas infers dtype
`object` for it (the condition of line 317). -/
def isStrValue : Value → Bool
  | .str _ => true
  | .num _ => false

/-- Lines 316-320: the `Value_numeric` column derived from the `Value`
column, with the dtype test deciding between the stripping branch and the
identity branch. -/
def valueNumericSeries (vs : List Value) : Option (List ℚ) :=
  if vs.any isStrValue then coerceSeries coerceNumeric vs
  else coerceSeries numOnly vs

/-- Value-level view of the currency normalizer: numeric cells are
unchanged, string cells are stripped of `$`/`,` and converted. -/
def normalizeValue (v : Value) : Option Value :=
  (coerceNumeric v).map Value.num

theorem coerceSeries_length {f : Value → Option ℚ} :
    ∀ {vs : List Value} {qs : List ℚ}, coerceSeries f vs = some qs →
      qs.length = vs.length := by
  intro vs
  induction vs with
  | nil => intro qs h; simp [coerceSeries] at h; simp [← h]
  | cons v vs ih =>
    intro qs h
    simp only [coerceSeries] at h
    cases hv : f v with
    | none => rw [hv] at h; simp at h
    | some q =>
      rw [hv] at h
      cases hs : coerceSeries f vs with
      | none => rw [hs] at h; simp at h
      | some qs' =>
        rw [hs] at h
        simp at h
        subst h
        simp [ih hs]

theorem valueNumericSeries_length {vs : List Value} {qs : List ℚ}
    (h : valueNumericSeries vs = some qs) : qs.length = vs.length := by
  unfold valueNumericSeries at h
  split at h <;> exact coerceSeries_length h

/-- In a column with no string cell (non-object dtype), the identity branch
and the stripping branch coincide cell-by-cell, so `valueNumericSeries`
always agrees with the per-cell normalizer mapped over the column. -/
theorem valueNumericSeries_eq_coerce (vs : List Value) :
    valueNumericSeries vs = coerceSeries coerceNumeric vs := by
  unfold valueNumericSeries
  split
  · rfl
  · next hno =>
    induction vs with
    | nil => rfl
    | cons v vs ih =>
      simp only [List.any_cons, Bool.or_eq_true] at hno
      push_neg at hno
      cases v with
      | str s => simp [isStrValue] at hno
      | num q =>
        simp only [coerceSeries, numOnly, coerceNumeric]
        rw [ih (by simpa using hno.2)]

/-- A rectangular pandas DataFrame: ordered column names and positional rows
(each row lists its cells in column order). -/
structure Table where
  cols : List String
  rows : List (List Value)
deriving DecidableEq

/-- Index of the first column with the given name. -/
def colIdx? (c : String) : List String → Option ℕ
  | [] => none
  | a :: l => if a == c then some 0 else (colIdx? c l).map (· + 1)

/-- Cell of a row under a column name, `none` when the column is absent. -/
def cellAt? (t : Table) (r : List Value) (c : String) : Option Value :=
  (colIdx? c t.cols).bind fun i => r[i]?

/-- Semantics of `row.get(c, d)` on a pandas row. -/
def cellD (t : Table) (r : List Value) (c : String) (d : Value) : Value :=
  (cellAt? t r c).getD d

/-- The column `df[c]` as a list of cells (empty when the column is absent;
every call site first checks presence, as the source does). -/
def getCol (t : Table) (c : String) : List Value :=
  match colIdx? c t.cols with
  | some i => t.rows.map fun r => (r[i]?).getD (Value.num 0)
  | none => []

/-- Semantics of the in-place column assignment `df[c] = vs`: overwrite the
column when it exists, otherwise append it on the right. -/
def setCol (t : Table) (c : String) (vs : List Value) : Table :=
  match colIdx? c t.cols with
  | some i => { cols := t.cols, rows := t.rows.zipWith (fun r v => r.set i v) vs }
  | none => { cols := t.cols ++ [c], rows := t.rows.zipWith (fun r v => r ++ [v]) vs }

/-- Descending comparison on sort keys with pandas `na_position='last'`
semantics: a `none` key (NaN) sorts after every finite key. -/
def keyGE (a b : Option ℚ) : Bool :=
  match a, b with
  | some x, some y => decide (y ≤ x)
  | some _, none => true
  | none, none => true
  | none, some _ => false

/-- Insert an element into a descending-sorted list, before the first
element whose key it is ≥ to.  Used right-to-left this keeps equal-key
elements in their original relative order. -/
def insertKeyDesc (key : α → Option ℚ) (x : α) : List α → List α
  | [] => [x]
  | y :: ys => if keyGE (key x) (key y) then x :: y :: ys else y :: insertKeyDesc key x ys

/-- Model of `sort_values(by=…, ascending=False)` (lines 347, 355, 425): a
deterministic descending sort with NaN keys last.  The source leaves the
pandas `kind` parameter at its default `'quicksort'`, which is not documented
to be stable; this model fixes a stable insertion sort, and every theorem
below that is proved from it depends only on tie-independent consequences
(a permutation is produced; distinct keys force a unique order). -/
def sortKeyDesc (key : α → Option ℚ) (l : List α) : List α :=
  l.foldr (insertKeyDesc key) []

theorem insertKeyDesc_perm (key : α → Option ℚ) (x : α) :
    ∀ l : List α, List.Perm (insertKeyDesc key x l) (x :: l) := by
  intro l
  induction l with
  | nil => simp [insertKeyDesc]
  | cons y ys ih =>
    simp only [insertKeyDesc]
    split
    · exact List.Perm.refl _
    · exact (ih.cons y).trans (List.Perm.swap x y ys)

theorem sortKeyDesc_perm (key : α → Option ℚ) :
    ∀ l : List α, List.Perm (sortKeyDesc key l) l := by
  intro l
  induction l with
  | nil => exact List.Perm.refl _
  | cons x xs ih =>
    exact (insertKeyDesc_perm key x (sortKeyDesc key xs)).trans (ih.cons x)

theorem sortKeyDesc_length (key : α → Option ℚ) (l : List α) :
    (sortKeyDesc key l).length = l.length :=
  (sortKeyDesc_perm key l).length_eq

/-- Per-holding percentage `v / total * 100` of line 351: finite exactly
when `total ≠ 0`; division by a zero total gives NaN (`0/0`) or `±inf`
(`v/0`), collapsed to `none`. -/
def pctOfTotal (total v : ℚ) : Option ℚ :=
  if total = 0 then none else some (v / total * 100)

/-- `Series.max()` (NaN, i.e. `none`, on an empty column). -/
def listMax? : List ℚ → Option ℚ
  | [] => none
  | x :: xs => some (xs.foldl max x)

/-- `Series.min()` (NaN, i.e. `none`, on an empty column). -/
def listMin? : List ℚ → Option ℚ
  | [] => none
  | x :: xs => some (xs.foldl min x)

/-- The scalar statistics of lines 323-327. -/
structure BasicStats where
  total_value : ℚ
  count : ℕ
  avg_value : ℚ
  max_value : Option ℚ
  min_value : Option ℚ
deriving DecidableEq

/-- One row of `stats['holdings_pct']`: the four selected columns of line
354 (`Name`, `Symbol`, `Value_numeric`, `pct_of_total`). -/
structure PctRow where
  name : Value
  symbol : Value
  value_numeric : ℚ
  pct : Option ℚ
deriving DecidableEq

/-- The successful statistics payload: summary scalars, `top_holdings`
(rows of the mapped frame paired with their `Value_numeric`), and
`holdings_pct`. -/
structure Stats where
  basic : BasicStats
  top_holdings : List (List Value × ℚ)
  holdings_pct : List PctRow
deriving DecidableEq

/-- Lines 323-327: `total_value`, `count`, `avg_value` (with the
`count > 0` guard), `max_value`, `min_value`. -/
def buildBasic (df : Table) (vals : List ℚ) : BasicStats :=
  { total_value := vals.sum
    count := df.rows.length
    avg_value := if 0 < df.rows.length then vals.sum / (df.rows.length : ℚ) else 0
    max_value := listMax? vals
    min_value := listMin? vals }

/-- Rows of the selected frame of lines 350-354, in input order: `Name` from
the row, `Symbol` taken from the `Ticker` column (line 344 overwrites any
`Symbol` column of `df_mapped` with the `Ticker` values; this point is only
reached when `Ticker` is present), `Value_numeric`, and `pct_of_total`. -/
def buildPctRows (df : Table) (vals : List ℚ) : List PctRow :=
  (df.rows.zip vals).map fun rv =>
    { name := cellD df rv.1 "Name" (.num 0)
      symbol := cellD df rv.1 "Ticker" (.num 0)
      value_numeric := rv.2
      pct := pctOfTotal vals.sum rv.2 }

/-- The full statistics value assembled on the success path: `top_holdings`
is the stable descending sort by `Value_numeric` cut to 10 (line 347), and
`holdings_pct` is the selected frame sorted descending by `pct_of_total`
(line 355). -/
def buildStats (df : Table) (vals : List ℚ) : Stats :=
  { basic := buildBasic df vals
    top_holdings := (sortKeyDesc (fun rv => some rv.2) (df.rows.zip vals)).take 10
    holdings_pct := sortKeyDesc PctRow.pct (buildPctRows df vals) }

/-- Outcome of `calculate_portfolio_statistics`, keyed by which `error`
entry (if any) ends up in the returned `stats` dict:
* `noValueColumn` — line 362, `"Value column not found in data"`;
* `numericError` — the `except` branch of line 357, reached either when a
  `Value` cell fails numeric conversion (line 318) or when the `Name` column
  is absent at the selection of line 355 (a `KeyError`);
* `missingSymbol` — line 338, `"Missing required columns: Symbol"`; lines
  323-327 ran first, so the partially filled scalar stats are kept;
* `ok` — no `error` key. -/
inductive CalcResult where
  | noValueColumn
  | numericError
  | missingSymbol (partialStats : BasicStats)
  | ok (s : Stats)
deriving DecidableEq

/-- True exactly when the result carries no `error` entry. -/
def CalcResult.isOk : CalcResult → Bool
  | .ok _ => true
  | _ => false

/-- True exactly for the schema-resolution error of line 338. -/
def CalcResult.isSchemaError : CalcResult → Bool
  | .missingSymbol _ => true
  | _ => false

/-- Lines 309-364, `calculate_portfolio_statistics(df)`.  The second
component is the table as the caller sees it afterwards: the in-place
assignment `df['Value_numeric'] = …` (lines 318/320) mutates the argument,
so once the `Value` column exists and every cell converts, the caller's
table has gained (or had overwritten) a `Value_numeric` column — even on
the `missingSymbol` and `Name`-`KeyError` error paths, which run after the
assignment.  On the `noValueColumn` path and when conversion itself raises,
the assignment never completes and the table is unchanged. -/
def calculate_portfolio_statistics (df : Table) : CalcResult × Table :=
  if "Value" ∈ df.cols then
    match valueNumericSeries (getCol df "Value") with
    | none => (.numericError, df)
    | some vals =>
      if "Ticker" ∈ df.cols then
        if "Name" ∈ df.cols then
          (.ok (buildStats df vals), setCol df "Value_numeric" (vals.map Value.num))
        else (.numericError, setCol df "Value_numeric" (vals.map Value.num))
      else (.missingSymbol (buildBasic df vals),
            setCol df "Value_numeric" (vals.map Value.num))
  else (.noValueColumn, df)

/-- Lines 369-370: resolution of the ticker column for the reduced export —
`Ticker` if present, else `Symbol`, else unresolved. -/
def morningstarTickerCol (df : Table) : Option String :=
  if "Ticker" ∈ df.cols then some "Ticker"
  else if "Symbol" ∈ df.cols then some "Symbol" else none

/-- Line 370: the `Shares` column must be present verbatim. -/
def morningstarSharesCol (df : Table) : Option String :=
  if "Shares" ∈ df.cols then some "Shares" else none

/-- Lines 366-386, `create_morningstar_csv(df, …)`: `none` models the early
`return None` (no file written at all); otherwise the written table has
exactly the two columns `Ticker` and `Shares`, one row per input row, with
the first column holding the resolved ticker/symbol cells. -/
def create_morningstar_csv (df : Table) : Option Table :=
  match morningstarTickerCol df, morningstarSharesCol df with
  | some tc, some sc =>
    some { cols := ["Ticker", "Shares"]
           rows := ((getCol df tc).zip (getCol df sc)).map fun p => [p.1, p.2] }
  | _, _ => none

/-- One line of the text report, with the numeric payloads kept exact
rather than decimal-formatted.  `topEntry` carries an `Option ℚ` percentage
because a NaN `pct_of_total` is printed as `nan%`. -/
inductive ReportLine where
  | header
  | summary (b : BasicStats)
  | topEntry (name symbol : Value) (pct : Option ℚ) (value : ℚ)
  | otherHoldings (pct value : ℚ)
  | allHeader
  | entry (name ticker value : Value) (shares : Option Value)
deriving DecidableEq

/-- Line 417: `stats['holdings_pct'].iloc[10:]['pct_of_total'].sum()` —
pandas `Series.sum()` skips NaN entries (`skipna=True` default), so the
aggregate is the sum of the finite percentages beyond the first ten. -/
def othersSum (s : Stats) : ℚ :=
  ((s.holdings_pct.drop 10).filterMap PctRow.pct).sum

/-- The shares cell for one line of the full listing (lines 429-433):
`row.get('Shares', 'N/A')`, with the segment omitted when the result is the
`'N/A'` default. -/
def sharesCell (df : Table) (r : List Value) : Option Value :=
  match cellAt? df r "Shares" with
  | some v => if v = .str "N/A" then none else some v
  | none => none

/-- Lines 388-436, `create_text_report(stats, df, …)`, as the ordered list
of lines it writes; `df` is the table *after* `calculate_portfolio_statistics`
mutated it, whose `Value_numeric` column line 425 sorts on. -/
def create_text_report (stats : Stats) (df : Table) : List ReportLine :=
  [ReportLine.header, ReportLine.summary stats.basic]
    ++ (stats.holdings_pct.take 10).map
        (fun p => ReportLine.topEntry p.name p.symbol p.pct p.value_numeric)
    ++ (if 10 < stats.holdings_pct.length then
          [ReportLine.otherHoldings (othersSum stats)
            (othersSum stats / 100 * stats.basic.total_value)]
        else [])
    ++ [ReportLine.allHeader]
    ++ (sortKeyDesc
          (fun r => match cellAt? df r "Value_numeric" with
                    | some (.num q) => some q
                    | _ => none) df.rows).map
        (fun r => ReportLine.entry (cellD df r "Name" (.str "N/A"))
          (cellD df r "Ticker" (cellD df r "Symbol" (.str "N/A")))
          (cellD df r "Value_numeric" (cellD df r "Value" (.num 0)))
          (sharesCell df r))

/-- Pattern-begins test on character lists (first argument is the pattern). -/
def listStartsWith : List Char → List Char → Bool
  | [], _ => true
  | _ :: _, [] => false
  | p :: ps, c :: cs => p == c && listStartsWith ps cs

/-- Semantics of Python's `str.startswith(pat)` / Lean's `String.startsWith`,
phrased over character lists so that concrete sentinel checks evaluate. -/
def strStartsWith (s pat : String) : Bool :=
  listStartsWith pat.toList s.toList

/-- Result of the external `extract_portfolio_holdings` (module
`read_empower_webarchive`, spec §6): either a sequence of holdings records
or a message string; a failure message begins `"Could not"`. -/
inductive HoldingsData where
  | tbl (t : Table)
  | msg (s : String)
deriving DecidableEq

/-- Modelled from the spec: the external `save_holdings_to_csv` followed by
`pd.read_csv` (lines 271-274; the writer lives in the missing module
`read_empower_webarchive`) is modelled as the identity on the parsed
holdings table, per spec §6's description of `B.csv` as the full export of
the holdings.  A parser result that is a string *not* beginning
`"Could not"` is outside the parser contract of spec §6; it is mapped to an
empty table and no theorem below touches that branch. -/
def HoldingsData.asTable : HoldingsData → Table
  | .tbl t => t
  | .msg _ => { cols := [], rows := [] }

/-- The dict returned by `process_webarchive` (lines 227-299).  Keys that a
branch leaves out of its dict literal (`morningstar_path`, `report_path` on
the failure paths) are modelled as `none`. -/
structure ProcessResult where
  success : Bool
  error : Option String
  text : Option String
  holdings : Option HoldingsData
  csv_path : Option String
  raw_data_path : Option String
  text_path : Option String
  morningstar_path : Option String
  report_path : Option String
deriving DecidableEq

/-- Observable side effects of one `process_webarchive` run, in program
order: file writes and the call into the holdings parser. -/
inductive Event where
  | writeRawData
  | parseAttempt
  | writeCsv
  | writeMorningstar
  | writeReport
  | writeText
deriving DecidableEq

/-- Lines 267-287: the artifact-producing tail of `process_webarchive` once
holdings data is in hand.  `t` is the holdings table (the full export's
contents); statistics run on it and the report is generated from the table
as mutated by the statistics call (line 278 then line 280). -/
def processHoldings (base extractedText : String) (rawPath : Option String)
    (hd : HoldingsData) (t : Table) (save_csv : Bool) : ProcessResult × List Event :=
  ({ success := true
     error := none
     text := some extractedText
     holdings := some hd
     csv_path := if save_csv then some (base ++ ".csv") else none
     raw_data_path := rawPath
     text_path := some (base ++ ".txt")
     morningstar_path :=
       if save_csv then
         (create_morningstar_csv t).map (fun _ => base ++ "_morningstar.csv")
       else none
     report_path :=
       if save_csv then
         match (calculate_portfolio_statistics t).1 with
         | .ok _ => some (base ++ "_report.txt")
         | _ => none
       else none },
   [Event.writeRawData, Event.parseAttempt]
     ++ (if save_csv then
           [Event.writeCsv]
             ++ (if (create_morningstar_csv t).isSome then [Event.writeMorningstar] else [])
             ++ (match (calculate_portfolio_statistics t).1 with
                 | .ok _ => [Event.writeReport]
                 | _ => [])
         else [])
     ++ [Event.writeText])

/-- Lines 255-265: the branch taken when the parser returned a string — a
`"Could not"` sentinel aborts with the failure dict (raw-data path only),
anything else flows on as holdings data. -/
def processMsg (base extractedText s : String) (rawPath : Option String)
    (save_csv : Bool) : ProcessResult × List Event :=
  if strStartsWith s "Could not" = true then
    ({ success := false, error := some s, text := some extractedText
       holdings := none, csv_path := none, raw_data_path := rawPath
       text_path := none, morningstar_path := none, report_path := none },
     [Event.writeRawData, Event.parseAttempt])
  else
    processHoldings base extractedText rawPath (.msg s)
      (HoldingsData.asTable (.msg s)) save_csv

/-- Lines 227-299, `process_webarchive(file_path, extract_portfolio,
save_csv)`.  The external extraction result and the external parser result
are inputs; `base` is the file-path base name `B` of the artifact naming
convention.  Extraction fails on an empty text or an `"Error"`-prefixed
sentinel (line 232); otherwise the raw text is written *before* the parser
is consulted (line 245 before line 255).  A `"Could not"`-prefixed parser
result aborts with the raw-data artifact as the only produced path. -/
def process_webarchive (base extractedText : String) (parsed : HoldingsData)
    (extract_portfolio save_csv : Bool) : ProcessResult × List Event :=
  if extractedText == "" || strStartsWith extractedText "Error" then
    ({ success := false
       error := some (if extractedText == "" then
           "Extraction failed: No content extracted" else extractedText)
       text := none, holdings := none, csv_path := none, raw_data_path := none
       text_path := none, morningstar_path := none, report_path := none }, [])
  else
    if extract_portfolio then
      match parsed with
      | .msg s =>
        processMsg base extractedText s (some (base ++ "_rawdata.txt")) save_csv
      | .tbl t =>
        processHoldings base extractedText (some (base ++ "_rawdata.txt"))
          (.tbl t) t save_csv
    else
      ({ success := true, error := none, text := some extractedText
         holdings := none, csv_path := none
         raw_data_path := some (base ++ "_rawdata.txt")
         text_path := none, morningstar_path := none, report_path := none },
       [Event.writeRawData])

/-! ## Concrete inputs used by the claims -/

/-- Spec §8, end-to-end scenario A: two holdings with `Ticker` present and
currency-formatted `Value` strings. -/
def scenarioA : Table :=
  { cols := ["Name", "Ticker", "Shares", "Value"]
    rows := [[.str "Apple Inc", .str "AAPL", .num 10, .str "$1,500.00"],
             [.str "Bond Fund", .str "BND", .num 5, .str "$500.00"]] }

/-- The statistics value scenario A produces. -/
def scenarioAStats : Stats :=
  { basic := { total_value := 2000, count := 2, avg_value := 1000,
               max_value := some 1500, min_value := some 500 }
    top_holdings :=
      [([.str "Apple Inc", .str "AAPL", .num 10, .str "$1,500.00"], 1500),
       ([.str "Bond Fund", .str "BND", .num 5, .str "$500.00"], 500)]
    holdings_pct :=
      [{ name := .str "Apple Inc", symbol := .str "AAPL",
         value_numeric := 1500, pct := some 75 },
       { name := .str "Bond Fund", symbol := .str "BND",
         value_numeric := 500, pct := some 25 }] }

/-- The table scenario A's caller holds after the statistics call: the input
plus the in-place `Value_numeric` column. -/
def scenarioATable : Table :=
  { cols := ["Name", "Ticker", "Shares", "Value", "Value_numeric"]
    rows := [[.str "Apple Inc", .str "AAPL", .num 10, .str "$1,500.00", .num 1500],
             [.str "Bond Fund", .str "BND", .num 5, .str "$500.00", .num 500]] }

/-! ## C1 — end-to-end scenario A -/

/-- C1: on scenario A's two holdings the statistics computation returns
`total_value = 2000.00`, `count = 2`, `avg_value = 1000.00`,
`max_value = 1500.00`, `min_value = 500.00`, `top_holdings` in the order
`[AAPL, BND]`, and `pct_of_total` values `[75.0, 25.0]` (`holdings_pct` in
that descending order). -/
theorem c1_scenario_a :
    (calculate_portfolio_statistics scenarioA).1 = CalcResult.ok scenarioAStats ∧
      scenarioAStats.basic.total_value = 2000 ∧
      scenarioAStats.basic.count = 2 ∧
      scenarioAStats.basic.avg_value = 1000 ∧
      scenarioAStats.basic.max_value = some 1500 ∧
      scenarioAStats.basic.min_value = some 500 ∧
      scenarioAStats.top_holdings.map (fun rv => cellD scenarioA rv.1 "Ticker" (.num 0)) =
        [.str "AAPL", .str "BND"] ∧
      scenarioAStats.holdings_pct.map PctRow.pct = [some 75, some 25] := by
  decide

/-! ## C6 — the currency normalizer is pure and idempotent -/

/-- C6: currency normalization never mutates anything (it is a function of
its argument alone); a numeric value is a no-op; a string value is stripped
of `$` and `,` before conversion (with an unparseable remainder signalled as
an error, i.e. `none`); the column-level operation agrees with the per-value
normalizer on every cell; and normalization is idempotent —
`normalize (normalize v) = normalize v` for every valid `v`. -/
theorem c6_normalizer :
    (∀ q : ℚ, normalizeValue (.num q) = some (.num q)) ∧
    (∀ s : String, normalizeValue (.str s) = (pyFloat? (stripCurrency s)).map Value.num) ∧
    (∀ vs : List Value, valueNumericSeries vs = coerceSeries coerceNumeric vs) ∧
    (∀ v w : Value, normalizeValue v = some w → normalizeValue w = some w) := by
  refine ⟨fun q => rfl, fun s => rfl, valueNumericSeries_eq_coerce, ?_⟩
  intro v w h
  unfold normalizeValue at h
  cases hv : coerceNumeric v with
  | none => rw [hv] at h; simp at h
  | some q =>
    rw [hv] at h
    simp at h
    subst h
    rfl

/-- Witness for C6: idempotence applied at the concrete currency string
`"$1,500.00"`, whose normal form `1500` renormalizes to itself. -/
theorem c6_normalizer_witness :
    normalizeValue (Value.num 1500) = some (Value.num 1500) :=
  c6_normalizer.2.2.2 (Value.str "$1,500.00") (Value.num 1500) (by decide)

/-! ## Inversion and arithmetic helpers -/

theorem colIdx?_isSome_of_mem {c : String} :
    ∀ {l : List String}, c ∈ l → (colIdx? c l).isSome := by
  intro l
  induction l with
  | nil => intro h; cases h
  | cons a l ih =>
    intro h
    unfold colIdx?
    by_cases ha : a == c
    · simp [ha]
    · have : c ∈ l := by
        cases h with
        | head => simp at ha
        | tail _ h => exact h
      simp [ha, Option.isSome_map]
      exact ih this

theorem getCol_length {t : Table} {c : String} (h : c ∈ t.cols) :
    (getCol t c).length = t.rows.length := by
  have hsome := colIdx?_isSome_of_mem h
  unfold getCol
  cases hidx : colIdx? c t.cols with
  | none => rw [hidx] at hsome; simp at hsome
  | some i => simp

/-- Inversion for the success path of `calculate_portfolio_statistics`: an
`ok` result forces the three column names to be present, the `Value` column
to convert cleanly, and the outputs to be the built statistics and the
`Value_numeric`-extended table. -/
theorem calc_ok_inv {df : Table} {s : Stats} {t' : Table}
    (h : calculate_portfolio_statistics df = (.ok s, t')) :
    "Value" ∈ df.cols ∧ "Ticker" ∈ df.cols ∧ "Name" ∈ df.cols ∧
      ∃ vals, valueNumericSeries (getCol df "Value") = some vals ∧
        s = buildStats df vals ∧
        t' = setCol df "Value_numeric" (vals.map Value.num) := by
  unfold calculate_portfolio_statistics at h
  split at h
  · next hval =>
    split at h
    · simp at h
    · next vals hser =>
      split at h
      · next hT =>
        split at h
        · next hN =>
          simp only [Prod.mk.injEq, CalcResult.ok.injEq] at h
          exact ⟨hval, hT, hN, vals, hser, h.1.symm, h.2.symm⟩
        · simp at h
      · simp at h
  · simp at h

theorem sum_map_pct (T : ℚ) :
    ∀ l : List ℚ, (l.map fun v => v / T * 100).sum = l.sum / T * 100 := by
  intro l
  induction l with
  | nil => simp
  | cons a l ih =>
    simp [ih]
    ring

theorem buildStats_pct_all_some {df : Table} {vals : List ℚ} (hT : vals.sum ≠ 0) :
    ∀ p ∈ (buildStats df vals).holdings_pct, p.pct.isSome := by
  intro p hp
  have hp2 : p ∈ buildPctRows df vals :=
    ((sortKeyDesc_perm PctRow.pct (buildPctRows df vals)).mem_iff).1 hp
  unfold buildPctRows at hp2
  simp only [List.mem_map] at hp2
  obtain ⟨rv, _, rfl⟩ := hp2
  simp [pctOfTotal, hT]

theorem buildStats_pct_sum {df : Table} {vals : List ℚ}
    (hlen : vals.length = df.rows.length) (hT : vals.sum ≠ 0) :
    ((buildStats df vals).holdings_pct.filterMap PctRow.pct).sum = 100 := by
  have hperm :=
    (sortKeyDesc_perm PctRow.pct (buildPctRows df vals)).filterMap PctRow.pct
  show (List.filterMap PctRow.pct (sortKeyDesc PctRow.pct (buildPctRows df vals))).sum = 100
  rw [hperm.sum_eq]
  unfold buildPctRows
  rw [List.filterMap_map]
  rw [show (PctRow.pct ∘ fun rv : List Value × ℚ =>
        ({ name := cellD df rv.1 "Name" (.num 0), symbol := cellD df rv.1 "Ticker" (.num 0),
           value_numeric := rv.2, pct := pctOfTotal vals.sum rv.2 } : PctRow)) =
      some ∘ ((fun v => v / vals.sum * 100) ∘ Prod.snd) from
    funext fun rv => by simp [pctOfTotal, hT]]
  rw [List.filterMap_eq_map, ← List.map_map, List.map_snd_zip _ _ (le_of_eq hlen),
      sum_map_pct, div_self hT, one_mul]

/-! ## C7 — percentages sum to 100 when the total is positive -/

/-- The two facts C7 asserts of a statistics value: every `pct_of_total` is
finite, and the percentages sum exactly to 100 over `ℚ`. -/
def pctTotals (s : Stats) : Prop :=
  (∀ p ∈ s.holdings_pct, p.pct.isSome) ∧
    (s.holdings_pct.filterMap PctRow.pct).sum = 100

/-- C7: whenever the statistics computation succeeds with a strictly
positive `total_value`, every holding's `pct_of_total`
(`ValueNumeric / total_value * 100`) is finite and the percentages sum to
exactly 100 over exact rational arithmetic. -/
theorem c7_pct_sum (df : Table) (s : Stats) (t' : Table)
    (h : calculate_portfolio_statistics df = (.ok s, t'))
    (hpos : 0 < s.basic.total_value) : pctTotals s := by
  obtain ⟨hV, hT, hN, vals, hser, rfl, rfl⟩ := calc_ok_inv h
  have hne : vals.sum ≠ 0 := ne_of_gt hpos
  have hlen : vals.length = df.rows.length := by
    rw [valueNumericSeries_length hser]
    exact getCol_length hV
  exact ⟨buildStats_pct_all_some hne, buildStats_pct_sum hlen hne⟩

/-- Witness for C7: scenario A has `total_value = 2000 > 0` and its two
percentages (75 and 25) sum to 100. -/
theorem c7_pct_sum_witness : pctTotals scenarioAStats :=
  c7_pct_sum scenarioA scenarioAStats scenarioATable (by decide) (by decide)

/-! ## C2 — schema resolution of the canonical `Symbol` field -/

/-- A holdings table that has a `Symbol` column but no `Ticker` column. -/
def dfSymbolOnly : Table :=
  { cols := ["Name", "Symbol", "Value"]
    rows := [[.str "X Fund", .str "XX", .str "$10"]] }

/-- Counterexample to C2 as stated: with columns `Name`, `Symbol`, `Value`
(a `Symbol` column present, no `Ticker`), the statistics computation signals
the schema error `"Missing required columns: Symbol"` — it never falls back
to the `Symbol` column, contradicting the claim that a schema error occurs
only when neither `Ticker` nor `Symbol` is present. -/
theorem c2_counterexample :
    "Symbol" ∈ dfSymbolOnly.cols ∧
      dfSymbolOnly.cols.contains "Ticker" = false ∧
      (calculate_portfolio_statistics dfSymbolOnly).1.isSchemaError = true := by
  decide

/-- The amended C2 resolution behaviour: the statistics computation errors
on the canonical `Symbol` field exactly when `Ticker` is absent, while the
reduced-export generator prefers `Ticker`, falls back to `Symbol`, and
silently resolves nothing when both are absent. -/
def c2Prop (df : Table) : Prop :=
  ((calculate_portfolio_statistics df).1.isSchemaError = true ↔ "Ticker" ∉ df.cols) ∧
    ("Ticker" ∈ df.cols → morningstarTickerCol df = some "Ticker") ∧
    ("Ticker" ∉ df.cols → "Symbol" ∈ df.cols → morningstarTickerCol df = some "Symbol") ∧
    ("Ticker" ∉ df.cols → "Symbol" ∉ df.cols → create_morningstar_csv df = none)

/-- C2 (amended): schema resolution is site-specific.  In the statistics
computation the canonical `Symbol` field resolves only from a `Ticker`
column — the schema error naming `Symbol` is signalled exactly when
`Ticker` is absent, even when a `Symbol` column is present.  Only the
reduced-export generator implements the claimed fallback: `Ticker` if
present, else `Symbol`; when neither is present it omits its output without
signalling any error.  (Hypotheses: the `Value` column exists and converts,
so the statistics run reaches the resolution step.) -/
theorem c2_schema_resolution (df : Table) (vals : List ℚ)
    (hV : "Value" ∈ df.cols)
    (hser : valueNumericSeries (getCol df "Value") = some vals) : c2Prop df := by
  refine ⟨?_, ?_, ?_, ?_⟩
  · unfold calculate_portfolio_statistics
    rw [if_pos hV, hser]
    by_cases hT : "Ticker" ∈ df.cols <;> by_cases hN : "Name" ∈ df.cols <;>
      simp [hT, hN, CalcResult.isSchemaError]
  · intro hT
    simp [morningstarTickerCol, hT]
  · intro hT hS
    simp [morningstarTickerCol, hT, hS]
  · intro hT hS
    simp [create_morningstar_csv, morningstarTickerCol, hT, hS]

/-- Witness for C2 (amended), applied at scenario A, whose `Value` column
converts to `[1500, 500]`. -/
theorem c2_schema_resolution_witness : c2Prop scenarioA :=
  c2_schema_resolution scenarioA [1500, 500] (by decide) (by decide)

/-! ## C3 — zero total value does not raise a statistics error -/

/-- Projection to the success payload. -/
def calcStats? : CalcResult → Option Stats
  | .ok s => some s
  | _ => none

/-- One holding whose `Value` is 0, with `Name` and `Ticker` present. -/
def dfZeroValue : Table :=
  { cols := ["Name", "Ticker", "Value"]
    rows := [[.str "A Fund", .str "AA", .num 0]] }

/-- Counterexample to C3 as stated: on a holdings sequence whose only
holding has `Value = 0` (so `total_value == 0`), the statistics computation
does NOT fail — it returns a success result — and it does produce a
`pct_of_total` entry, which is the non-finite result of `0/0` (NaN, modelled
as `none`).  This contradicts both the demanded `StatisticsError` and the
guarantee of never yielding NaN percentages. -/
theorem c3_counterexample :
    (calculate_portfolio_statistics dfZeroValue).1.isOk = true ∧
      (calcStats? (calculate_portfolio_statistics dfZeroValue).1).map
          (fun s => (s.basic.total_value, s.holdings_pct.map PctRow.pct)) =
        some (0, [none]) := by
  decide

/-- The amended C3 behaviour at zero total: a success result whose
percentages are all non-finite. -/
def c3Prop (df : Table) : Prop :=
  ∃ s, (calculate_portfolio_statistics df).1 = CalcResult.ok s ∧
    s.basic.total_value = 0 ∧ ∀ p ∈ s.holdings_pct, p.pct = none

/-- C3 (amended): for every holdings sequence with `Value`, `Ticker` and
`Name` columns present whose values all convert and sum to 0 (in particular
when every holding has `Value = 0`, and vacuously when `count == 0`), the
statistics computation succeeds rather than failing with a
`StatisticsError`: the division by the zero total is performed and every
produced `pct_of_total` is non-finite (NaN/±inf, modelled as `none`).  The
error string `"Value column not found in data"` is signalled only when the
`Value` column itself is absent, not on degenerate totals. -/
theorem c3_zero_total (df : Table) (vals : List ℚ)
    (hV : "Value" ∈ df.cols) (hT : "Ticker" ∈ df.cols) (hN : "Name" ∈ df.cols)
    (hser : valueNumericSeries (getCol df "Value") = some vals)
    (hzero : vals.sum = 0) : c3Prop df := by
  refine ⟨buildStats df vals, ?_, hzero, ?_⟩
  · unfold calculate_portfolio_statistics
    rw [if_pos hV, hser]
    simp [hT, hN]
  · intro p hp
    have hp2 : p ∈ buildPctRows df vals :=
      ((sortKeyDesc_perm PctRow.pct (buildPctRows df vals)).mem_iff).1 hp
    unfold buildPctRows at hp2
    simp only [List.mem_map] at hp2
    obtain ⟨rv, _, rfl⟩ := hp2
    simp [pctOfTotal, hzero]

/-- Witness for C3 (amended) at the concrete zero-value holding. -/
theorem c3_zero_total_witness : c3Prop dfZeroValue :=
  c3_zero_total dfZeroValue [0] (by decide) (by decide) (by decide) (by decide)
    (by decide)

/-! ## C9 — the "Other Holdings" line of the text report -/

/-- Membership characterization of the aggregate line: an
`otherHoldings p v` line occurs in the report exactly when more than ten
`holdings_pct` rows exist, and then its payload is the skipna sum of the
percentages beyond the tenth together with the derived value. -/
theorem otherLine_mem {s : Stats} {dfR : Table} {p v : ℚ} :
    ReportLine.otherHoldings p v ∈ create_text_report s dfR ↔
      (10 < s.holdings_pct.length ∧ p = othersSum s ∧
        v = othersSum s / 100 * s.basic.total_value) := by
  unfold create_text_report
  by_cases hlen : 10 < s.holdings_pct.length <;>
    simp [hlen, List.mem_append, eq_comm] <;>
  · intro hm
    obtain ⟨q, _, hEq⟩ := List.mem_map.1 (List.mem_of_mem_take hm)
    simp at hEq

/-- What C9 asserts of a statistics value, for every table the report may be
rendered against: the aggregate line appears iff there are more than ten
holdings, and its percentage is both the exact sum of the percentages beyond
the top ten and `100` minus the top-ten sum, with the value derived from it. -/
def c9Prop (s : Stats) : Prop :=
  ∀ dfR : Table,
    ((∃ p v, ReportLine.otherHoldings p v ∈ create_text_report s dfR) ↔
      10 < s.basic.count) ∧
    ∀ p v, ReportLine.otherHoldings p v ∈ create_text_report s dfR →
      p = ((s.holdings_pct.drop 10).filterMap PctRow.pct).sum ∧
      p = 100 - ((s.holdings_pct.take 10).filterMap PctRow.pct).sum ∧
      v = p / 100 * s.basic.total_value

/-- C9 (amended): for a successful statistics computation with strictly
positive `total_value`, the text report contains an "Other Holdings" line
iff the holdings sequence has more than 10 elements, and when present its
percentage equals the exact (pre-rounding) sum of `pct_of_total` over the
holdings beyond the top 10, which equals `100` minus the sum of the top-10
percentages; its value equals that percentage divided by 100 times
`total_value`.  The positivity hypothesis is necessary: with
`total_value = 0` every percentage is NaN, the line still appears (with the
skipna sum 0), and the `100 - top10` identity fails. -/
theorem c9_other_holdings (df : Table) (s : Stats) (t' : Table)
    (h : calculate_portfolio_statistics df = (.ok s, t'))
    (hpos : 0 < s.basic.total_value) : c9Prop s := by
  obtain ⟨hV, hT, hN, vals, hser, rfl, rfl⟩ := calc_ok_inv h
  have hne : vals.sum ≠ 0 := ne_of_gt hpos
  have hlen : vals.length = df.rows.length := by
    rw [valueNumericSeries_length hser]
    exact getCol_length hV
  have hcnt : (buildStats df vals).holdings_pct.length = (buildStats df vals).basic.count := by
    show (sortKeyDesc PctRow.pct (buildPctRows df vals)).length = df.rows.length
    rw [sortKeyDesc_length]
    unfold buildPctRows
    rw [List.length_map, List.length_zip, hlen, Nat.min_self]
  have hsum : (((buildStats df vals).holdings_pct.take 10).filterMap PctRow.pct).sum +
      (((buildStats df vals).holdings_pct.drop 10).filterMap PctRow.pct).sum = 100 := by
    rw [← List.sum_append, ← List.filterMap_append, List.take_append_drop]
    exact buildStats_pct_sum hlen hne
  intro dfR
  constructor
  · constructor
    · rintro ⟨p, v, hm⟩
      rw [← hcnt]
      exact (otherLine_mem.1 hm).1
    · intro hgt
      exact ⟨othersSum (buildStats df vals),
        othersSum (buildStats df vals) / 100 * (buildStats df vals).basic.total_value,
        otherLine_mem.2 ⟨hcnt ▸ hgt, rfl, rfl⟩⟩
  · intro p v hm
    obtain ⟨hgt, hp, hv⟩ := otherLine_mem.1 hm
    refine ⟨hp, ?_, ?_⟩
    · rw [hp]
      unfold othersSum
      linarith [hsum]
    · rw [hv, hp]

/-- Eleven zero-value holdings. -/
def dfElevenZero : Table :=
  { cols := ["Name", "Ticker", "Value"]
    rows := List.replicate 11 [.str "Z Fund", .str "ZZ", .num 0] }

/-- The statistics produced for the eleven zero-value holdings: no error,
all percentages NaN. -/
def statsElevenZero : Stats :=
  { basic := { total_value := 0, count := 11, avg_value := 0,
               max_value := some 0, min_value := some 0 }
    top_holdings := List.replicate 10 ([.str "Z Fund", .str "ZZ", .num 0], 0)
    holdings_pct := List.replicate 11
      { name := .str "Z Fund", symbol := .str "ZZ", value_numeric := 0, pct := none } }

/-- Counterexample to C9 as stated (which carries no positivity
hypothesis): with 11 zero-value holdings the statistics computation
succeeds (so the report is generated), the report contains the line
`Other Holdings: 0% ($0)` — the skipna sum over the NaN percentages beyond
the top ten — yet `100` minus the (skipna) sum of the top-10 percentages is
`100 ≠ 0`, so the claimed `100 - top10` identity fails; read over IEEE
floats the beyond-top-10 percentages are NaN while the printed aggregate
is `0`, which differs as well. -/
theorem c9_counterexample :
    (calculate_portfolio_statistics dfElevenZero).1 = CalcResult.ok statsElevenZero ∧
      ReportLine.otherHoldings 0 0 ∈
        create_text_report statsElevenZero (calculate_portfolio_statistics dfElevenZero).2 ∧
      100 - ((statsElevenZero.holdings_pct.take 10).filterMap PctRow.pct).sum = 100 ∧
      decide ((0 : ℚ) = 100) = false := by
  decide

/-- Eleven unit-value holdings (positive total). -/
def dfEleven : Table :=
  { cols := ["Name", "Ticker", "Value"]
    rows := List.replicate 11 [.str "H Fund", .str "HH", .num 1] }

/-- The statistics produced for the eleven unit-value holdings. -/
def statsEleven : Stats :=
  { basic := { total_value := 11, count := 11, avg_value := 1,
               max_value := some 1, min_value := some 1 }
    top_holdings := List.replicate 10 ([.str "H Fund", .str "HH", .num 1], 1)
    holdings_pct := List.replicate 11
      { name := .str "H Fund", symbol := .str "HH", value_numeric := 1,
        pct := some (100 / 11) } }

/-- Witness for C9 (amended) at eleven unit-value holdings, whose total 11
is positive. -/
theorem c9_other_holdings_witness : c9Prop statsEleven :=
  c9_other_holdings dfEleven statsEleven
    (calculate_portfolio_statistics dfEleven).2 (by decide) (by decide)

/-! ## C10 — which stages mutate their input -/

theorem colIdx?_eq_none_of_not_mem {c : String} :
    ∀ {l : List String}, c ∉ l → colIdx? c l = none := by
  intro l
  induction l with
  | nil => intro _; rfl
  | cons a l ih =>
    intro h
    unfold colIdx?
    have ha : (a == c) = false := by
      simp only [beq_eq_false_iff_ne, ne_eq]
      intro hac
      exact h (hac ▸ List.mem_cons_self a l)
    rw [ha]
    simp [ih fun hc => h (List.mem_cons_of_mem a hc)]

theorem setCol_of_not_mem {t : Table} {c : String} {vs : List Value} (h : c ∉ t.cols) :
    setCol t c vs =
      { cols := t.cols ++ [c], rows := t.rows.zipWith (fun r v => r ++ [v]) vs } := by
  unfold setCol
  rw [colIdx?_eq_none_of_not_mem h]

theorem zipWith_getElem?_of {α β γ : Type} {f : α → β → γ} :
    ∀ {as : List α} {bs : List β} {i : ℕ} {a : α} {b : β},
      as[i]? = some a → bs[i]? = some b → (List.zipWith f as bs)[i]? = some (f a b) := by
  intro as
  induction as with
  | nil => intro bs i a b ha; simp at ha
  | cons x as ih =>
    intro bs i a b ha hb
    cases bs with
    | nil => simp at hb
    | cons y bs =>
      cases i with
      | zero =>
        simp at ha hb
        simp [ha, hb]
      | succ n =>
        simp at ha hb
        simpa using ih ha hb

/-- The table handed back by `calculate_portfolio_statistics` is either the
untouched input (no `Value` column, or a conversion failure) or the input
with the `Value_numeric` column assigned. -/
theorem calc_table_cases (df : Table) :
    (calculate_portfolio_statistics df).2 = df ∨
      ∃ vals, "Value" ∈ df.cols ∧
        valueNumericSeries (getCol df "Value") = some vals ∧
        (calculate_portfolio_statistics df).2 =
          setCol df "Value_numeric" (vals.map Value.num) := by
  unfold calculate_portfolio_statistics
  split
  · next hV =>
    split
    · exact Or.inl rfl
    · next vals hser =>
      right
      refine ⟨vals, hV, hser, ?_⟩
      by_cases hT : "Ticker" ∈ df.cols <;> by_cases hN : "Name" ∈ df.cols <;>
        simp [hT, hN]
  · exact Or.inl rfl

/-- Counterexample to C10 as stated: the statistics computation mutates the
table passed in — after the call on scenario A the caller's table has
gained a `Value_numeric` column, so the input is not unchanged and a field
has been added to every record. -/
theorem c10_counterexample :
    decide ((calculate_portfolio_statistics scenarioA).2 = scenarioA) = false ∧
      (calculate_portfolio_statistics scenarioA).2.cols =
        scenarioA.cols ++ ["Value_numeric"] := by
  decide

/-- The amended C10 frame property: the only mutation any core stage
performs on its input table is the in-place addition of the derived
`Value_numeric` column; every pre-existing column and cell keeps its value
and position, and nothing is removed. -/
def c10Prop (df : Table) : Prop :=
  ((calculate_portfolio_statistics df).2.cols.take df.cols.length = df.cols) ∧
    ((calculate_portfolio_statistics df).2.cols = df.cols ∨
      (calculate_portfolio_statistics df).2.cols = df.cols ++ ["Value_numeric"]) ∧
    ∀ i : ℕ, ∀ r : List Value, df.rows[i]? = some r →
      ∃ r2, (calculate_portfolio_statistics df).2.rows[i]? = some r2 ∧
        r2.take r.length = r ∧ (r2 = r ∨ ∃ q : ℚ, r2 = r ++ [Value.num q])

/-- C10 (amended): the statistics stage does mutate its input — contrary to
the claim — but only by appending the derived `Value_numeric` column (the
report generator then relies on that column, line 425); every original
field of every record keeps its value, no field is removed, and the other
stages (reduced export, report) build only new structures.  The hypothesis
excludes an input that already carries a `Value_numeric` column, which the
parser never produces. -/
theorem c10_mutation (df : Table) (hvn : "Value_numeric" ∉ df.cols) : c10Prop df := by
  unfold c10Prop
  rcases calc_table_cases df with hsame | ⟨vals, hV, hser, hset⟩
  · rw [hsame]
    exact ⟨List.take_length df.cols, Or.inl rfl,
      fun i r hr => ⟨r, hr, List.take_length r, Or.inl rfl⟩⟩
  · rw [hset, setCol_of_not_mem hvn]
    refine ⟨List.take_left df.cols ["Value_numeric"], Or.inr rfl, ?_⟩
    intro i r hr
    have hi : i < df.rows.length := by
      by_contra hge
      rw [List.getElem?_eq_none (Nat.le_of_not_lt hge)] at hr
      cases hr
    have hvlen : (vals.map Value.num).length = df.rows.length := by
      rw [List.length_map, valueNumericSeries_length hser]
      exact getCol_length hV
    have hvi : i < vals.length := by
      rw [List.length_map] at hvlen
      omega
    obtain ⟨q, hq⟩ : ∃ q, (vals.map Value.num)[i]? = some (Value.num q) := by
      refine ⟨vals[i], ?_⟩
      rw [List.getElem?_map, List.getElem?_eq_getElem hvi]
      rfl
    exact ⟨r ++ [Value.num q], zipWith_getElem?_of hr hq,
      List.take_left r [Value.num q], Or.inr ⟨q, rfl⟩⟩

/-- Witness for C10 (amended) at scenario A, whose columns do not yet
contain `Value_numeric`. -/
theorem c10_mutation_witness : c10Prop scenarioA :=
  c10_mutation scenarioA (by decide)

/-! ## C5 — the reduced export and the surviving artifacts -/

theorem morningstarTickerCol_mem {df : Table} {tc : String}
    (h : morningstarTickerCol df = some tc) : tc ∈ df.cols := by
  unfold morningstarTickerCol at h
  by_cases hT : "Ticker" ∈ df.cols
  · rw [if_pos hT] at h
    cases h
    exact hT
  · rw [if_neg hT] at h
    by_cases hS : "Symbol" ∈ df.cols
    · rw [if_pos hS] at h
      cases h
      exact hS
    · rw [if_neg hS] at h
      cases h

theorem morningstarSharesCol_mem {df : Table} {sc : String}
    (h : morningstarSharesCol df = some sc) : sc ∈ df.cols := by
  unfold morningstarSharesCol at h
  by_cases hS : "Shares" ∈ df.cols
  · rw [if_pos hS] at h
    cases h
    exact hS
  · rw [if_neg hS] at h
    cases h

theorem create_morningstar_isSome (df : Table) :
    (create_morningstar_csv df).isSome = true ↔
      (("Ticker" ∈ df.cols ∨ "Symbol" ∈ df.cols) ∧ "Shares" ∈ df.cols) := by
  unfold create_morningstar_csv morningstarTickerCol morningstarSharesCol
  by_cases hT : "Ticker" ∈ df.cols <;> by_cases hS : "Symbol" ∈ df.cols <;>
    by_cases hSh : "Shares" ∈ df.cols <;> simp [hT, hS, hSh]

theorem create_morningstar_inv {df m : Table}
    (h : create_morningstar_csv df = some m) :
    ∃ tc sc, morningstarTickerCol df = some tc ∧ morningstarSharesCol df = some sc ∧
      m.cols = ["Ticker", "Shares"] ∧
      m.rows = ((getCol df tc).zip (getCol df sc)).map fun p => [p.1, p.2] := by
  unfold create_morningstar_csv at h
  cases htc : morningstarTickerCol df with
  | none => rw [htc] at h; simp at h
  | some tc =>
    cases hsc : morningstarSharesCol df with
    | none => rw [htc, hsc] at h; simp at h
    | some sc =>
      rw [htc, hsc] at h
      simp only [Option.some.injEq] at h
      exact ⟨tc, sc, rfl, rfl, by rw [← h], by rw [← h]⟩

theorem create_morningstar_rows_length {df m : Table}
    (h : create_morningstar_csv df = some m) : m.rows.length = df.rows.length := by
  obtain ⟨tc, sc, htc, hsc, _, hrows⟩ := create_morningstar_inv h
  rw [hrows, List.length_map, List.length_zip,
      getCol_length (morningstarTickerCol_mem htc),
      getCol_length (morningstarSharesCol_mem hsc), Nat.min_self]

/-- On a successful extraction, the table-parse path of the orchestrator is
the artifact-producing continuation. -/
theorem process_tbl_eq (base ext : String) (df : Table) (sv : Bool)
    (hne : (ext == "") = false) (herr : strStartsWith ext "Error" = false) :
    process_webarchive base ext (.tbl df) true sv =
      processHoldings base ext (some (base ++ "_rawdata.txt")) (.tbl df) df sv := by
  unfold process_webarchive
  rw [hne, herr]
  rfl

/-- A table with `Shares` but neither `Ticker` nor `Symbol`. -/
def dfNoSymbol : Table :=
  { cols := ["Name", "Shares", "Value"]
    rows := [[.str "N Fund", .num 3, .str "$10"]] }

/-- Counterexample to C5 as stated, in two parts at concrete inputs.
First, on holdings with no `Ticker`/`Symbol` column the reduced export is
omitted as claimed — but the text report is omitted too (the statistics
computation fails on the unresolved `Symbol`, so `report_path` is never
set), contradicting "the other artifacts (full export, text file, report)
are still produced".  Second, when the reduced export is produced its
columns are literally named `Ticker` and `Shares`, not `Symbol` and
`Shares`. -/
theorem c5_counterexample :
    ((process_webarchive "B" "text" (.tbl dfNoSymbol) true true).1.morningstar_path =
        none ∧
      (process_webarchive "B" "text" (.tbl dfNoSymbol) true true).1.report_path = none ∧
      (process_webarchive "B" "text" (.tbl dfNoSymbol) true true).1.success = true) ∧
      (create_morningstar_csv scenarioA).map Table.cols = some ["Ticker", "Shares"] := by
  decide

/-- The amended C5 artifact contract for one orchestrator run on a parsed
holdings table. -/
def c5Prop (base ext : String) (df : Table) : Prop :=
  ((process_webarchive base ext (.tbl df) true true).1.success = true) ∧
    ((process_webarchive base ext (.tbl df) true true).1.error = none) ∧
    ((process_webarchive base ext (.tbl df) true true).1.csv_path =
      some (base ++ ".csv")) ∧
    ((process_webarchive base ext (.tbl df) true true).1.text_path =
      some (base ++ ".txt")) ∧
    ((process_webarchive base ext (.tbl df) true true).1.raw_data_path =
      some (base ++ "_rawdata.txt")) ∧
    ((process_webarchive base ext (.tbl df) true true).1.morningstar_path.isSome = true ↔
      (("Ticker" ∈ df.cols ∨ "Symbol" ∈ df.cols) ∧ "Shares" ∈ df.cols)) ∧
    ((process_webarchive base ext (.tbl df) true true).1.report_path.isSome = true ↔
      (calculate_portfolio_statistics df).1.isOk = true) ∧
    ∀ m, create_morningstar_csv df = some m →
      m.cols = ["Ticker", "Shares"] ∧ m.rows.length = df.rows.length

/-- C5 (amended): the reduced export is produced — with exactly the two
columns `Ticker` and `Shares` (the `Ticker` column holding the resolved
Symbol/Ticker field) and one row per holding — iff the ticker field
resolves (from `Ticker`, else `Symbol`) and `Shares` is present; when either
is unresolved it is omitted entirely with no error, and the full export and
text file are still produced.  The text report, however, is produced iff
the statistics computation succeeds (which requires a `Ticker` column), so
in the no-`Ticker`/`Symbol` case the report is omitted along with the
reduced export. -/
theorem c5_reduced_export (base ext : String) (df : Table)
    (hne : (ext == "") = false) (herr : strStartsWith ext "Error" = false) :
    c5Prop base ext df := by
  unfold c5Prop
  simp only [process_tbl_eq base ext df true hne herr]
  unfold processHoldings
  refine ⟨rfl, rfl, rfl, rfl, rfl, ?_, ?_, ?_⟩
  · rw [← create_morningstar_isSome df]
    cases create_morningstar_csv df <;> simp
  · cases hc : (calculate_portfolio_statistics df).1 <;>
      simp [hc, CalcResult.isOk]
  · intro m hm
    obtain ⟨tc, sc, htc, hsc, hcols, hrows⟩ := create_morningstar_inv hm
    exact ⟨hcols, create_morningstar_rows_length hm⟩

/-- Witness for C5 (amended) at scenario A: `Ticker` and `Shares` both
present, so the reduced export exists with the `Ticker`/`Shares` header,
and the statistics succeed, so the report exists too. -/
theorem c5_reduced_export_witness : c5Prop "B" "text" scenarioA :=
  c5_reduced_export "B" "text" scenarioA (by decide) (by decide)

/-! ## C8 — raw text is persisted before parsing is attempted -/

/-- What C8 asserts of one orchestrator run whose extraction succeeded:
whatever the parser returns, the first two events are the raw-data write
followed by the parse attempt; and on a `"Could not"`-prefixed parser
result the run stops there, returning the failure dict in which only the
raw-data artifact path is set (`csv_path`, `text_path`, `morningstar_path`
and `report_path` all absent) and the user-visible message is passed
through. -/
def c8Prop (base ext : String) : Prop :=
  (∀ parsed : HoldingsData,
    (process_webarchive base ext parsed true true).2.take 2 =
      [Event.writeRawData, Event.parseAttempt]) ∧
    ∀ s : String, strStartsWith s "Could not" = true →
      process_webarchive base ext (.msg s) true true =
        ({ success := false, error := some s, text := some ext, holdings := none,
           csv_path := none, raw_data_path := some (base ++ "_rawdata.txt"),
           text_path := none, morningstar_path := none, report_path := none },
         [Event.writeRawData, Event.parseAttempt])

/-- C8: whenever extraction succeeds (nonempty text without the `"Error"`
sentinel), the raw extracted text is written before parsing is attempted —
the event trace starts `[writeRawData, parseAttempt]` for every parser
outcome — and if parsing fails with a `"Could not"` result, the returned
failure result still carries the raw-data artifact path while every
holdings-dependent artifact path is absent. -/
theorem processMsg_take2 (base ext s : String) (rawPath : Option String) (sv : Bool) :
    (processMsg base ext s rawPath sv).2.take 2 =
      [Event.writeRawData, Event.parseAttempt] := by
  unfold processMsg
  split
  · rfl
  · rfl

theorem processMsg_sentinel (base ext s : String) (rawPath : Option String) (sv : Bool)
    (hs : strStartsWith s "Could not" = true) :
    processMsg base ext s rawPath sv =
      ({ success := false, error := some s, text := some ext, holdings := none
         csv_path := none, raw_data_path := rawPath, text_path := none
         morningstar_path := none, report_path := none },
       [Event.writeRawData, Event.parseAttempt]) := by
  unfold processMsg
  rw [hs]
  rfl

theorem process_msg_eq (base ext s : String) (sv : Bool)
    (hne : (ext == "") = false) (herr : strStartsWith ext "Error" = false) :
    process_webarchive base ext (.msg s) true sv =
      processMsg base ext s (some (base ++ "_rawdata.txt")) sv := by
  unfold process_webarchive
  rw [hne, herr]
  rfl

theorem c8_raw_before_parse (base ext : String)
    (hne : (ext == "") = false) (herr : strStartsWith ext "Error" = false) :
    c8Prop base ext := by
  constructor
  · intro parsed
    cases parsed with
    | tbl t => rw [process_tbl_eq base ext t true hne herr]; rfl
    | msg s => rw [process_msg_eq base ext s true hne herr]; exact processMsg_take2 ..
  · intro s hs
    rw [process_msg_eq base ext s true hne herr]
    exact processMsg_sentinel base ext s (some (base ++ "_rawdata.txt")) true hs

/-- Witness for C8 at a concrete successful extraction and a concrete
`"Could not"` parser failure. -/
theorem c8_raw_before_parse_witness : c8Prop "B" "some extracted text" :=
  c8_raw_before_parse "B" "some extracted text" (by decide) (by decide)

end Portfolio
